import Mathlib

/-!
Verification of the LinguaVid dubbing pipeline (src/trans.py).

The development shallowly embeds the orchestration core of the program:
the DubSmart and ElevenLabs polling loops, the completed-payload asset
resolver, the merge step, and the temporary-file lifecycle of a full
pipeline run.  Network traffic is modelled as a stream of responses;
filesystem activity is modelled as a trace of effects interpreted over a
set of existing paths.
-/

deriving instance DecidableEq for Except

namespace LinguaVid

/-- Kind of deliverable returned by a provider: a fully dubbed video or an
audio-only track. -/
inductive ResultKind where
  | video
  | audio
deriving DecidableEq, Repr

/-- The "videoResult" object of a DubSmart project payload; its "value"
field, when truthy, is the URL of a complete dubbed video. -/
structure VideoResult where
  value : Option String
deriving DecidableEq, Repr

/-- One element of the "segments" list of a DubSmart project payload. -/
structure Segment where
  resultUrl : Option String
deriving DecidableEq, Repr

/-- A DubSmart project-status payload, as read by check_project_status:
base.state (defaulted to "unknown"), the optional videoResult object, the
segments list, the optional top-level audioPath, and base.error. -/
structure ProjectPayload where
  baseState : String
  videoResult : Option VideoResult
  segments : List Segment
  audioPath : Option String
  baseError : Option String
deriving DecidableEq, Repr

/-- Python truthiness of an optional string: None and the empty string are
falsy; a nonempty string is truthy (and is the value used). -/
def strTruthy : Option String → Option String
  | none => none
  | some s => if s.isEmpty then none else some s

/-- Python str.lower on the ASCII status strings the loops compare,
embedded as a character-by-character lowercase map. -/
def lowerStr (s : String) : String :=
  ⟨s.data.map Char.toLower⟩

/-- Fallback of the resolver in check_project_status (src/trans.py lines
219-224): return the top-level audioPath as an audio deliverable when
truthy, else raise "Project completed but no output found.". -/
def resolveAudioPath (p : ProjectPayload) : Except String (String × ResultKind) :=
  match strTruthy p.audioPath with
  | some a => Except.ok (a, ResultKind.audio)
  | none => Except.error "Project completed but no output found."

/-- The asset resolver of check_project_status (src/trans.py lines
204-224): if videoResult is present with a truthy value, return it as a
video deliverable; else if the segments list is nonempty and its first
element has a truthy resultUrl, return that URL as audio; else fall back
to audioPath, and fail if that too is absent. -/
def resolveDeliverable (p : ProjectPayload) : Except String (String × ResultKind) :=
  match strTruthy (p.videoResult.bind VideoResult.value) with
  | some v => Except.ok (v, ResultKind.video)
  | none =>
    match p.segments.head? with
    | some s =>
      match strTruthy s.resultUrl with
      | some u => Except.ok (u, ResultKind.audio)
      | none => resolveAudioPath p
    | none => resolveAudioPath p

/-- The asset resolver exactly as the specification words it (for
comparison with resolveDeliverable): prefer a full video deliverable;
otherwise return the URL of the first AVAILABLE audio segment (the first
segment that actually carries a URL); otherwise fail with a
no-deliverable error.  No other fallback exists in the spec's wording. -/
def resolveDeliverableSpec (p : ProjectPayload) : Except String (String × ResultKind) :=
  match strTruthy (p.videoResult.bind VideoResult.value) with
  | some v => Except.ok (v, ResultKind.video)
  | none =>
    match (p.segments.filterMap (fun s => strTruthy s.resultUrl)).head? with
    | some u => Except.ok (u, ResultKind.audio)
    | none => Except.error "NoDeliverableError"

/-- The resolver's behaviour as amended to match the code: like the spec
version, but only the FIRST segment is ever inspected, and a truthy
top-level audioPath is accepted as a third, audio-kind fallback before
failing. -/
def resolveDeliverableAmended (p : ProjectPayload) : Except String (String × ResultKind) :=
  match strTruthy (p.videoResult.bind VideoResult.value) with
  | some v => Except.ok (v, ResultKind.video)
  | none =>
    match p.segments.head?.bind (fun s => strTruthy s.resultUrl) with
    | some u => Except.ok (u, ResultKind.audio)
    | none =>
      match strTruthy p.audioPath with
      | some a => Except.ok (a, ResultKind.audio)
      | none => Except.error "Project completed but no output found."

/-- base.state values (lower-cased) that check_project_status treats as
successful completion. -/
def doneStates : List String := ["done", "completed", "finished"]

/-- base.state values (lower-cased) that check_project_status treats as a
provider-reported failure. -/
def failedStates : List String := ["failed", "error", "cancelled"]

/-- One HTTP poll response observed by the DubSmart status loop: a 200
response carrying a payload, a non-200 status code, or a raised
requests.exceptions.RequestException. -/
inductive PollResponse where
  | payload (p : ProjectPayload)
  | httpError (code : Nat)
  | netError (msg : String)

/-- Terminal outcome of the DubSmart polling loop: a resolved deliverable,
a raised exception message, or the timeout raised after the attempt cap. -/
inductive PollOutcome where
  | completed (url : String) (kind : ResultKind)
  | failed (msg : String)
  | timedOut
deriving DecidableEq, Repr

/-- Handling of one 200-payload by the loop body of check_project_status
(src/trans.py lines 190-230): on a done-state, resolve the deliverable
(raising when none is found); on a failed-state, raise with the provider's
base.error text (defaulted to "Unknown error"); otherwise stay pending. -/
def pollStep (p : ProjectPayload) : Option PollOutcome :=
  if lowerStr p.baseState ∈ doneStates then
    some (match resolveDeliverable p with
      | Except.ok (u, k) => PollOutcome.completed u k
      | Except.error e => PollOutcome.failed e)
  else if lowerStr p.baseState ∈ failedStates then
    some (PollOutcome.failed ("Dubbing failed: " ++ p.baseError.getD "Unknown error"))
  else
    none

/-- Handling of one iteration's response: non-200 codes and network
exceptions are absorbed inside the loop (logged and slept over) and leave
the loop running; only a 200 payload can end it. -/
def responseStep : PollResponse → Option PollOutcome
  | PollResponse.payload p => pollStep p
  | PollResponse.httpError _ => none
  | PollResponse.netError _ => none

/-- The while-loop skeleton shared by both providers' status loops: run
down the list of responses, exiting with the first terminal outcome; an
exhausted list is the timeout raised after the loop.  The second component
counts the poll cycles actually performed. -/
def loopRun {α β : Type} (step : α → Option β) (timeoutVal : β) : List α → β × Nat
  | [] => (timeoutVal, 0)
  | r :: rest =>
    match step r with
    | some out => (out, 1)
    | none =>
      let q := loopRun step timeoutVal rest
      (q.1, q.2 + 1)

/-- The values of the attempt counter at each poll the loop performs,
starting from a given counter value (the counter starts at 0 and is
incremented only after a non-terminal cycle completes). -/
def loopAttemptLog {α β : Type} (step : α → Option β) : Nat → List α → List Nat
  | _, [] => []
  | a, r :: rest =>
    match step r with
    | some _ => [a]
    | none => a :: loopAttemptLog step (a + 1) rest

/-- The DubSmart polling loop over an explicit list of responses. -/
def pollRun : List PollResponse → PollOutcome × Nat :=
  loopRun responseStep PollOutcome.timedOut

/-- Attempt-counter log of the DubSmart polling loop. -/
def pollAttemptLog : Nat → List PollResponse → List Nat :=
  loopAttemptLog responseStep

/-- DubSmartTranslator.check_project_status (src/trans.py lines 174-242):
poll the response stream while attempt < maxAttempts (the source fixes
maxAttempts to 120), returning the outcome and the number of polls. -/
def check_project_status (stream : Nat → PollResponse) (maxAttempts : Nat) :
    PollOutcome × Nat :=
  pollRun ((List.range maxAttempts).map stream)

/-- The attempt cap hard-coded in both status loops of src/trans.py. -/
def max_attempts : Nat := 120

/-- An ElevenLabs dubbing-status payload as read by check_dubbing_status:
the status string (defaulted to "unknown") and the optional error text. -/
structure DubbingPayload where
  status : String
  error : Option String
deriving DecidableEq, Repr

/-- One HTTP poll response observed by the ElevenLabs status loop. -/
inductive ELResponse where
  | payload (d : DubbingPayload)
  | httpError (code : Nat)
  | netError (msg : String)

/-- Terminal outcome of the ElevenLabs polling loop. -/
inductive ELOutcome where
  | dubbed
  | failed (msg : String)
  | timedOut
deriving DecidableEq, Repr

/-- Handling of one 200-payload by check_dubbing_status (src/trans.py
lines 354-370): status "dubbed" succeeds; "failed" or "error" raises with
the payload's error text; any other status stays pending. -/
def elStep (d : DubbingPayload) : Option ELOutcome :=
  if d.status = "dubbed" then
    some ELOutcome.dubbed
  else if d.status ∈ ["failed", "error"] then
    some (ELOutcome.failed ("ElevenLabs dubbing failed: " ++ d.error.getD "Unknown error"))
  else
    none

/-- Handling of one response of the ElevenLabs loop: non-200 codes and
network exceptions are absorbed inside the loop. -/
def elResponseStep : ELResponse → Option ELOutcome
  | ELResponse.payload d => elStep d
  | ELResponse.httpError _ => none
  | ELResponse.netError _ => none

/-- The ElevenLabs polling loop over an explicit list of responses. -/
def elPollRun : List ELResponse → ELOutcome × Nat :=
  loopRun elResponseStep ELOutcome.timedOut

/-- Attempt-counter log of the ElevenLabs polling loop. -/
def elPollAttemptLog : Nat → List ELResponse → List Nat :=
  loopAttemptLog elResponseStep

/-- ElevenLabsTranslator.check_dubbing_status (src/trans.py lines
340-381): poll while attempt < maxAttempts (120 in the source). -/
def check_dubbing_status (stream : Nat → ELResponse) (maxAttempts : Nat) :
    ELOutcome × Nat :=
  elPollRun ((List.range maxAttempts).map stream)

/-- A moviepy clip, reduced to the one attribute the pipeline reads. -/
structure Clip where
  duration : ℚ
deriving DecidableEq, Repr

/-- moviepy subclip(t0, t1): the resulting clip lasts t1 - t0 seconds. -/
def subclip (c : Clip) (t0 t1 : ℚ) : Clip :=
  { c with duration := t1 - t0 }

/-- moviepy set_audio: the audio track is replaced and the video clip's
own duration is kept, so write_videofile emits a file of that duration. -/
def set_audio (video : Clip) (_audio : Clip) : Clip :=
  video

/-- The merge step shared by the process_video implementations
(src/trans.py lines 276-289 and 415-428): load both clips, truncate the
dubbed audio to the video's duration when it is strictly longer, and mux.
Returns the written output clip and the audio clip actually muxed. -/
def mergeStep (videoDur audioDur : ℚ) : Clip × Clip :=
  let video : Clip := { duration := videoDur }
  let newAudio : Clip := { duration := audioDur }
  let newAudio :=
    if newAudio.duration > video.duration then
      subclip newAudio 0 video.duration
    else
      newAudio
  (set_audio video newAudio, newAudio)

/-- Observable side effects of a pipeline run, in program order: the
upload, the project-creation request, the n HTTP polls of the status
loop, every file created on disk, every external muxer invocation, and
every successful file removal. -/
inductive Effect where
  | upload
  | createProject
  | poll (n : Nat)
  | writeFile (path : String)
  | merge (videoPath audioPath outputPath : String)
  | removeFile (path : String)
deriving DecidableEq, Repr

/-- tempfile.gettempdir() of the host, fixed for the model. -/
def tmpDir : String := "/tmp"

/-- Path of the intermediate DubSmart audio download
(os.path.join(tempfile.gettempdir(), "dubbed_audio.mp3")). -/
def dubbedAudioPath : String := tmpDir ++ "/dubbed_audio.mp3"

/-- Path of the intermediate ElevenLabs audio download. -/
def elevenAudioPath : String := tmpDir ++ "/elevenlabs_audio.mp3"

/-- Environment of one DubSmartTranslator.process_video run: outcomes of
the upload and project-creation calls, the status-response stream and the
attempt cap, per-URL download success, muxer success, and which removal
attempts the OS rejects (os.remove raising). -/
structure DubSmartEnv where
  uploadResult : Except String String
  createResult : Except String String
  stream : Nat → PollResponse
  maxAttempts : Nat
  downloadOk : String → Bool
  mergeOk : Bool
  removeFails : String → Bool

/-- DubSmartTranslator.process_video (src/trans.py lines 258-301):
upload, create the project, poll to a terminal outcome, then either
download a video deliverable straight to the output path, or download the
audio deliverable to the intermediate path, merge it with the original
video, and best-effort-remove the intermediate.  A raised exception stops
the run at that point; the intermediate's removal is attempted only when
the merge completed, and its failure is swallowed.  Returns the run's
result and the trace of effects. -/
def dubsmart_process_video (env : DubSmartEnv) (videoPath outputPath : String) :
    Except String Unit × List Effect :=
  match env.uploadResult with
  | Except.error e => (Except.error e, [Effect.upload])
  | Except.ok _fileKey =>
    match env.createResult with
    | Except.error e => (Except.error e, [Effect.upload, Effect.createProject])
    | Except.ok _projectId =>
      let r := check_project_status env.stream env.maxAttempts
      let pre : List Effect := [Effect.upload, Effect.createProject, Effect.poll r.2]
      match r.1 with
      | PollOutcome.timedOut => (Except.error "Project timeout", pre)
      | PollOutcome.failed msg => (Except.error msg, pre)
      | PollOutcome.completed url kind =>
        match kind with
        | ResultKind.video =>
          if env.downloadOk url then
            (Except.ok (), pre ++ [Effect.writeFile outputPath])
          else
            (Except.error "Download failed", pre)
        | ResultKind.audio =>
          if env.downloadOk url then
            if env.mergeOk then
              (Except.ok (),
                pre ++ [Effect.writeFile dubbedAudioPath,
                  Effect.merge videoPath dubbedAudioPath outputPath,
                  Effect.writeFile outputPath] ++
                  (if env.removeFails dubbedAudioPath then []
                   else [Effect.removeFile dubbedAudioPath]))
            else
              (Except.error "Merge failed",
                pre ++ [Effect.writeFile dubbedAudioPath,
                  Effect.merge videoPath dubbedAudioPath outputPath])
          else
            (Except.error "Download failed", pre ++ [])

/-- Environment of one ElevenLabsTranslator.process_video run. -/
structure ElevenLabsEnv where
  createResult : Except String String
  stream : Nat → ELResponse
  maxAttempts : Nat
  downloadOk : Bool
  mergeOk : Bool
  removeFails : String → Bool

/-- ElevenLabsTranslator.process_video (src/trans.py lines 401-440):
upload-and-create in one request, poll to a terminal outcome, download
the dubbed AUDIO track to the intermediate path, always merge it with the
original video, then best-effort-remove the intermediate. -/
def elevenlabs_process_video (env : ElevenLabsEnv) (videoPath outputPath : String) :
    Except String Unit × List Effect :=
  match env.createResult with
  | Except.error e => (Except.error e, [Effect.upload])
  | Except.ok _dubbingId =>
    let r := check_dubbing_status env.stream env.maxAttempts
    let pre : List Effect := [Effect.upload, Effect.poll r.2]
    match r.1 with
    | ELOutcome.timedOut => (Except.error "ElevenLabs timeout", pre)
    | ELOutcome.failed msg => (Except.error msg, pre)
    | ELOutcome.dubbed =>
      if env.downloadOk then
        if env.mergeOk then
          (Except.ok (),
            pre ++ [Effect.writeFile elevenAudioPath,
              Effect.merge videoPath elevenAudioPath outputPath,
              Effect.writeFile outputPath] ++
              (if env.removeFails elevenAudioPath then []
               else [Effect.removeFile elevenAudioPath]))
        else
          (Except.error "Merge failed",
            pre ++ [Effect.writeFile elevenAudioPath,
              Effect.merge videoPath elevenAudioPath outputPath])
      else
        (Except.error "Download failed", pre)

/-- The input-path main writes the uploaded bytes to (src/trans.py line
657). -/
def inputPathOf (fileName : String) : String :=
  tmpDir ++ "/" ++ fileName

/-- The output path main passes to process_video (src/trans.py lines
661-664). -/
def outputPathOf (fileName : String) : String :=
  tmpDir ++ "/dubbed_" ++ fileName

/-- main's run of the DubSmart pipeline (src/trans.py lines 656-725):
write the uploaded file to the input path, run process_video under a
try/except that absorbs any raised error, and in the finally block
best-effort-remove the input and output paths (each removal's failure
swallowed).  Returns the pipeline result and the full effect trace. -/
def mainRun (env : DubSmartEnv) (fileName : String) : Except String Unit × List Effect :=
  let inputPath := inputPathOf fileName
  let outputPath := outputPathOf fileName
  let r := dubsmart_process_video env inputPath outputPath
  let cleanup :=
    (if env.removeFails inputPath then [] else [Effect.removeFile inputPath]) ++
    (if env.removeFails outputPath then [] else [Effect.removeFile outputPath])
  (r.1, Effect.writeFile inputPath :: r.2 ++ cleanup)

/-- Interpret one effect over the set of existing paths: a write creates
the path, a successful removal deletes it, everything else leaves the
filesystem unchanged. -/
def applyEffect (fs : List String) : Effect → List String
  | Effect.writeFile p => if p ∈ fs then fs else p :: fs
  | Effect.removeFile p => fs.filter (fun q => q ≠ p)
  | _ => fs

/-- The paths existing after running a trace of effects. -/
def runFs (fs : List String) (tr : List Effect) : List String :=
  tr.foldl applyEffect fs

/-! ### Sample inputs used to instantiate the theorems -/

/-- A 200-payload whose base.state is still non-terminal. -/
def pendingPayload : ProjectPayload :=
  { baseState := "processing", videoResult := none, segments := [], audioPath := none,
    baseError := none }

/-- A completed payload carrying a full-video deliverable. -/
def donePayloadVideo : ProjectPayload :=
  { baseState := "Done", videoResult := some { value := some "http://x/video.mp4" },
    segments := [{ resultUrl := some "http://x/seg0.mp3" }], audioPath := none,
    baseError := none }

/-- A completed payload carrying only an audio-segment deliverable. -/
def donePayloadAudio : ProjectPayload :=
  { baseState := "done", videoResult := none,
    segments := [{ resultUrl := some "http://x/a.mp3" }], audioPath := none,
    baseError := none }

/-- A provider-failure payload carrying a diagnostic message. -/
def failedPayload (msg : String) : ProjectPayload :=
  { baseState := "failed", videoResult := none, segments := [], audioPath := none,
    baseError := some msg }

/-- A completed payload whose first segment has no resultUrl while the
second one does, and which has no videoResult and no audioPath. -/
def segmentGapPayload : ProjectPayload :=
  { baseState := "done", videoResult := none,
    segments := [{ resultUrl := none }, { resultUrl := some "http://x/seg1.mp3" }],
    audioPath := none, baseError := none }

/-- An environment whose remote job never leaves the pending state. -/
def envAllPending : DubSmartEnv :=
  { uploadResult := Except.ok "key", createResult := Except.ok "pid",
    stream := fun _ => PollResponse.payload pendingPayload,
    maxAttempts := 120, downloadOk := fun _ => true, mergeOk := true,
    removeFails := fun _ => false }

/-- An environment whose job completes at once with an audio deliverable
and whose merge step then raises. -/
def envMergeFail : DubSmartEnv :=
  { uploadResult := Except.ok "key", createResult := Except.ok "pid",
    stream := fun _ => PollResponse.payload donePayloadAudio,
    maxAttempts := 1, downloadOk := fun _ => true, mergeOk := false,
    removeFails := fun _ => false }

/-- An environment whose job completes at once with an audio deliverable
and whose whole run succeeds. -/
def envAudioSuccess : DubSmartEnv :=
  { uploadResult := Except.ok "key", createResult := Except.ok "pid",
    stream := fun _ => PollResponse.payload donePayloadAudio,
    maxAttempts := 1, downloadOk := fun _ => true, mergeOk := true,
    removeFails := fun _ => false }

/-- An environment whose job completes at once with a full-video
deliverable. -/
def envVideoSuccess : DubSmartEnv :=
  { uploadResult := Except.ok "key", createResult := Except.ok "pid",
    stream := fun _ => PollResponse.payload donePayloadVideo,
    maxAttempts := 1, downloadOk := fun _ => true, mergeOk := true,
    removeFails := fun _ => false }

/-- An ElevenLabs environment whose run succeeds at once. -/
def elEnvSuccess : ElevenLabsEnv :=
  { createResult := Except.ok "dub1",
    stream := fun _ => ELResponse.payload { status := "dubbed", error := none },
    maxAttempts := 1, downloadOk := true, mergeOk := true,
    removeFails := fun _ => false }

/-! ### Lemmas about the loop skeleton -/

theorem loopRun_count_le {α β : Type} (step : α → Option β) (t : β) (rs : List α) :
    (loopRun step t rs).2 ≤ rs.length := by
  induction rs with
  | nil => simp [loopRun]
  | cons r rest ih =>
    simp only [loopRun, List.length_cons]
    cases h : step r with
    | none => simpa using Nat.succ_le_succ ih
    | some out => simp

theorem loopRun_all_none {α β : Type} (step : α → Option β) (t : β) (rs : List α)
    (h : ∀ r ∈ rs, step r = none) :
    loopRun step t rs = (t, rs.length) := by
  induction rs with
  | nil => simp [loopRun]
  | cons r rest ih =>
    have hr : step r = none := h r (List.mem_cons_self r rest)
    have hrest : ∀ x ∈ rest, step x = none := fun x hx => h x (List.mem_cons_of_mem r hx)
    simp [loopRun, hr, ih hrest]

theorem loopRun_cons_none {α β : Type} (step : α → Option β) (t : β) (r : α)
    (rest : List α) (h : step r = none) :
    loopRun step t (r :: rest)
      = ((loopRun step t rest).1, (loopRun step t rest).2 + 1) := by
  simp [loopRun, h]

theorem loopRun_append_terminal {α β : Type} (step : α → Option β) (t : β)
    (pre : List α) (r : α) (rest : List α) (out : β)
    (hpre : ∀ x ∈ pre, step x = none) (hr : step r = some out) :
    loopRun step t (pre ++ r :: rest) = (out, pre.length + 1) := by
  induction pre with
  | nil => simp [loopRun, hr]
  | cons x xs ih =>
    have hx : step x = none := hpre x (List.mem_cons_self x xs)
    have hxs : ∀ y ∈ xs, step y = none := fun y hy => hpre y (List.mem_cons_of_mem x hy)
    simp [loopRun, hx, ih hxs]

theorem loopAttemptLog_cons_none {α β : Type} (step : α → Option β) (a : Nat)
    (r : α) (rest : List α) (h : step r = none) :
    loopAttemptLog step a (r :: rest) = a :: loopAttemptLog step (a + 1) rest := by
  simp [loopAttemptLog, h]

/-! ### Lemmas about the filesystem interpretation -/

theorem runFs_append (fs : List String) (tr tr' : List Effect) :
    runFs fs (tr ++ tr') = runFs (runFs fs tr) tr' := by
  simp [runFs, List.foldl_append]

theorem mem_applyEffect (p : String) (fs : List String) (e : Effect)
    (h : p ∈ applyEffect fs e) : p ∈ fs ∨ e = Effect.writeFile p := by
  cases e with
  | writeFile q =>
    by_cases hq : q ∈ fs
    · exact Or.inl (by simpa [applyEffect, hq] using h)
    · simp only [applyEffect, hq, if_false] at h
      rcases List.mem_cons.mp h with h1 | h1
      · exact Or.inr (by rw [h1])
      · exact Or.inl h1
  | removeFile q => exact Or.inl (List.mem_of_mem_filter h)
  | upload => exact Or.inl h
  | createProject => exact Or.inl h
  | poll n => exact Or.inl h
  | merge v a o => exact Or.inl h

theorem mem_runFs (p : String) (fs : List String) (tr : List Effect)
    (h : p ∈ runFs fs tr) : p ∈ fs ∨ Effect.writeFile p ∈ tr := by
  induction tr generalizing fs with
  | nil => exact Or.inl h
  | cons e tr ih =>
    have h' : p ∈ runFs (applyEffect fs e) tr := h
    rcases ih (applyEffect fs e) h' with h1 | h1
    · rcases mem_applyEffect p fs e h1 with h2 | h2
      · exact Or.inl h2
      · exact Or.inr (by rw [← h2]; exact List.mem_cons_self e tr)
    · exact Or.inr (List.mem_cons_of_mem e h1)

theorem not_mem_applyEffect_remove_self (p : String) (fs : List String) :
    p ∉ applyEffect fs (Effect.removeFile p) := by
  simp [applyEffect, List.mem_filter]

theorem not_mem_runFs_remove_then (p : String) (fs : List String)
    (tr tr' : List Effect) (h : Effect.writeFile p ∉ tr') :
    p ∉ runFs fs (tr ++ Effect.removeFile p :: tr') := by
  intro hmem
  have heq : tr ++ Effect.removeFile p :: tr' = (tr ++ [Effect.removeFile p]) ++ tr' := by
    simp
  rw [heq, runFs_append] at hmem
  rcases mem_runFs p _ tr' hmem with h1 | h1
  · rw [runFs_append] at h1
    exact not_mem_applyEffect_remove_self p (runFs fs tr) (by simpa [runFs] using h1)
  · exact h h1

/-- main's finally block removes the input and output paths at the end of
every run, whatever trace the pipeline produced before it. -/
theorem main_cleanup_removes (env : DubSmartEnv) (fileName : String)
    (hin : env.removeFails (inputPathOf fileName) = false)
    (hout : env.removeFails (outputPathOf fileName) = false) :
    inputPathOf fileName ∉ runFs [] (mainRun env fileName).2 ∧
    outputPathOf fileName ∉ runFs [] (mainRun env fileName).2 := by
  have htr : (mainRun env fileName).2
      = Effect.writeFile (inputPathOf fileName)
          :: (dubsmart_process_video env (inputPathOf fileName) (outputPathOf fileName)).2
          ++ [Effect.removeFile (inputPathOf fileName),
              Effect.removeFile (outputPathOf fileName)] := by
    simp [mainRun, hin, hout]
  constructor
  · rw [htr]
    have h := not_mem_runFs_remove_then (inputPathOf fileName) []
      (Effect.writeFile (inputPathOf fileName)
        :: (dubsmart_process_video env (inputPathOf fileName) (outputPathOf fileName)).2)
      [Effect.removeFile (outputPathOf fileName)] (by simp)
    simpa using h
  · rw [htr]
    have h := not_mem_runFs_remove_then (outputPathOf fileName) []
      (Effect.writeFile (inputPathOf fileName)
        :: (dubsmart_process_video env (inputPathOf fileName) (outputPathOf fileName)).2
        ++ [Effect.removeFile (inputPathOf fileName)])
      [] (by simp)
    simpa using h

/-! ### Claim theorems -/

/-- C2 counterexample: in a run whose merge step raises after the
intermediate dubbed-audio download, the run ends in an error and the
intermediate temporary file is still on disk at the end of the run, so
not every temporary created during the run is removed when it ends. -/
theorem C2_counterexample :
    (mainRun envMergeFail "in.mp4").1 = Except.error "Merge failed" ∧
    dubbedAudioPath ∈ runFs [] (mainRun envMergeFail "in.mp4").2 := by
  decide

/-- C2 amended: the uploaded input copy and the output file are removed
at the end of every run — on success, on any raised error, and on early
abort (submission failing before polling included), with a failing
removal swallowed rather than propagated (a removal the OS rejects simply
leaves the file); the intermediate dubbed-audio download, however, is
removed only when the merge step completes without raising — in
particular on every fully successful run all three temporaries are
gone. -/
theorem C2_cleanup (env : DubSmartEnv) (fileName : String)
    (hin : env.removeFails (inputPathOf fileName) = false)
    (hout : env.removeFails (outputPathOf fileName) = false) :
    inputPathOf fileName ∉ runFs [] (mainRun env fileName).2 ∧
    outputPathOf fileName ∉ runFs [] (mainRun env fileName).2 ∧
    ((mainRun env fileName).1 = Except.ok () →
      env.removeFails dubbedAudioPath = false →
      dubbedAudioPath ∉ runFs [] (mainRun env fileName).2) := by
  obtain ⟨h1, h2⟩ := main_cleanup_removes env fileName hin hout
  refine ⟨h1, h2, ?_⟩
  intro hok hrm
  have htr : (mainRun env fileName).2
      = Effect.writeFile (inputPathOf fileName)
          :: (dubsmart_process_video env (inputPathOf fileName) (outputPathOf fileName)).2
          ++ [Effect.removeFile (inputPathOf fileName),
              Effect.removeFile (outputPathOf fileName)] := by
    simp [mainRun, hin, hout]
  cases hu : env.uploadResult with
  | error e => simp [mainRun, dubsmart_process_video, hu] at hok
  | ok fileKey =>
    cases hc : env.createResult with
    | error e => simp [mainRun, dubsmart_process_video, hu, hc] at hok
    | ok projectId =>
      cases hck : check_project_status env.stream env.maxAttempts with
      | mk outc n =>
        cases outc with
        | timedOut => simp [mainRun, dubsmart_process_video, hu, hc, hck] at hok
        | failed msg => simp [mainRun, dubsmart_process_video, hu, hc, hck] at hok
        | completed url kind =>
          cases kind with
          | video =>
            cases hdl : env.downloadOk url with
            | false => simp [mainRun, dubsmart_process_video, hu, hc, hck, hdl] at hok
            | true =>
              have htr2 : (dubsmart_process_video env (inputPathOf fileName)
                  (outputPathOf fileName)).2
                  = [Effect.upload, Effect.createProject, Effect.poll n,
                     Effect.writeFile (outputPathOf fileName)] := by
                simp [dubsmart_process_video, hu, hc, hck, hdl]
              intro hmem
              rcases mem_runFs dubbedAudioPath [] _ hmem with hfs | hw
              · simp at hfs
              · rw [htr, htr2] at hw
                simp at hw
                rcases hw with h | h
                · rw [h] at hmem
                  exact h1 hmem
                · rw [h] at hmem
                  exact h2 hmem
          | audio =>
            cases hdl : env.downloadOk url with
            | false => simp [mainRun, dubsmart_process_video, hu, hc, hck, hdl] at hok
            | true =>
              cases hmg : env.mergeOk with
              | false =>
                simp [mainRun, dubsmart_process_video, hu, hc, hck, hdl, hmg] at hok
              | true =>
                have htr2 : (dubsmart_process_video env (inputPathOf fileName)
                    (outputPathOf fileName)).2
                    = [Effect.upload, Effect.createProject, Effect.poll n,
                       Effect.writeFile dubbedAudioPath,
                       Effect.merge (inputPathOf fileName) dubbedAudioPath
                         (outputPathOf fileName),
                       Effect.writeFile (outputPathOf fileName),
                       Effect.removeFile dubbedAudioPath] := by
                  simp [dubsmart_process_video, hu, hc, hck, hdl, hmg, hrm]
                rw [htr, htr2]
                have h := not_mem_runFs_remove_then dubbedAudioPath []
                  [Effect.writeFile (inputPathOf fileName), Effect.upload,
                   Effect.createProject, Effect.poll n,
                   Effect.writeFile dubbedAudioPath,
                   Effect.merge (inputPathOf fileName) dubbedAudioPath
                     (outputPathOf fileName),
                   Effect.writeFile (outputPathOf fileName)]
                  [Effect.removeFile (inputPathOf fileName),
                   Effect.removeFile (outputPathOf fileName)] (by simp)
                simpa using h

/-- C2 witness: in a fully successful audio-deliverable run whose
removals all succeed, none of the three temporaries survives the run. -/
theorem C2_cleanup_witness :
    inputPathOf "in.mp4" ∉ runFs [] (mainRun envAudioSuccess "in.mp4").2 ∧
    outputPathOf "in.mp4" ∉ runFs [] (mainRun envAudioSuccess "in.mp4").2 ∧
    dubbedAudioPath ∉ runFs [] (mainRun envAudioSuccess "in.mp4").2 := by
  have h := C2_cleanup envAudioSuccess "in.mp4" rfl rfl
  exact ⟨h.1, h.2.1, h.2.2 (by decide) rfl⟩

/-- C9: on every run termination — a fully successful run included — the
cleanup removes both the uploaded input copy and the produced output
file, so no file persists at the output path after the run ends; and at
any point during the run the output path exists on disk only if the
download or merge step has already written it. -/
theorem C9_output_lifecycle (env : DubSmartEnv) (fileName : String)
    (hin : env.removeFails (inputPathOf fileName) = false)
    (hout : env.removeFails (outputPathOf fileName) = false) :
    inputPathOf fileName ∉ runFs [] (mainRun env fileName).2 ∧
    outputPathOf fileName ∉ runFs [] (mainRun env fileName).2 ∧
    (∀ k, outputPathOf fileName ∈ runFs [] ((mainRun env fileName).2.take k) →
      Effect.writeFile (outputPathOf fileName) ∈ (mainRun env fileName).2.take k) := by
  obtain ⟨h1, h2⟩ := main_cleanup_removes env fileName hin hout
  refine ⟨h1, h2, ?_⟩
  intro k hk
  rcases mem_runFs (outputPathOf fileName) [] _ hk with h | h
  · simp at h
  · exact h

/-- C9 witness: a fully successful direct-video run leaves neither the
input copy nor the output file behind. -/
theorem C9_output_lifecycle_witness :
    inputPathOf "clip.mp4" ∉ runFs [] (mainRun envVideoSuccess "clip.mp4").2 ∧
    outputPathOf "clip.mp4" ∉ runFs [] (mainRun envVideoSuccess "clip.mp4").2 := by
  have h := C9_output_lifecycle envVideoSuccess "clip.mp4" rfl rfl
  exact ⟨h.1, h.2.1⟩

/-- C3 counterexample: on a completed payload whose first segment carries
no resultUrl while the second one does, the code's resolver raises the
no-output error, whereas the claim ("the first available audio segment's
URL is returned with kind Audio") requires that URL to be returned; the
spec-worded resolver indeed returns it. -/
theorem C3_counterexample :
    resolveDeliverable segmentGapPayload
        = Except.error "Project completed but no output found." ∧
    resolveDeliverableSpec segmentGapPayload
        = Except.ok ("http://x/seg1.mp3", ResultKind.audio) := by
  decide

/-- C3 amended: the resolver prefers a full-video deliverable; otherwise
it inspects ONLY the first segment and returns its resultUrl, when truthy,
as audio; otherwise a truthy top-level audioPath is returned as audio;
otherwise it fails with "Project completed but no output found.". -/
theorem C3_resolver_behaviour (p : ProjectPayload) :
    resolveDeliverable p = resolveDeliverableAmended p := by
  unfold resolveDeliverable resolveDeliverableAmended resolveAudioPath
  cases strTruthy (p.videoResult.bind VideoResult.value) with
  | some v => rfl
  | none =>
    cases hs : p.segments with
    | nil => simp
    | cons s rest =>
      cases strTruthy s.resultUrl with
      | some u => simp
      | none => simp

/-- C4: the merge step truncates the dubbed audio to exactly the video's
duration whenever the audio is strictly longer, and in every case the
muxed output's duration equals the original video's duration. -/
theorem C4_merge_duration (videoDur audioDur : ℚ) :
    (mergeStep videoDur audioDur).1.duration = videoDur ∧
    (audioDur > videoDur → (mergeStep videoDur audioDur).2.duration = videoDur) ∧
    (audioDur ≤ videoDur → (mergeStep videoDur audioDur).2.duration = audioDur) := by
  refine ⟨rfl, ?_, ?_⟩
  · intro h
    simp [mergeStep, subclip, set_audio, h]
  · intro h
    simp [mergeStep, subclip, set_audio, not_lt.mpr h]

/-- C4 witness: with a 2-second video, a 3-second audio is truncated to 2
seconds and the output lasts 2 seconds; with a 3-second video and a
2-second audio the audio is kept at 2 seconds and the output lasts 3
seconds. -/
theorem C4_merge_duration_witness :
    (mergeStep 2 3).1.duration = 2 ∧ (mergeStep 2 3).2.duration = 2 ∧
    (mergeStep 3 2).1.duration = 3 ∧ (mergeStep 3 2).2.duration = 2 :=
  ⟨(C4_merge_duration 2 3).1, (C4_merge_duration 2 3).2.1 (by norm_num),
   (C4_merge_duration 3 2).1, (C4_merge_duration 3 2).2.2 (by norm_num)⟩

/-- C5: the first provider-reported terminal status ends the polling loop
at once (the poll count is exactly the number of polls up to and
including that one), and a failed status surfaces an error carrying the
provider's diagnostic text; this holds for both providers' loops. -/
theorem C5_terminal_stops :
    (∀ (pre : List PollResponse) (p : ProjectPayload) (rest : List PollResponse)
        (out : PollOutcome),
      (∀ r ∈ pre, responseStep r = none) → pollStep p = some out →
      pollRun (pre ++ PollResponse.payload p :: rest) = (out, pre.length + 1)) ∧
    (∀ (p : ProjectPayload) (msg : String),
      lowerStr p.baseState ∈ failedStates → p.baseError = some msg →
      pollStep p = some (PollOutcome.failed ("Dubbing failed: " ++ msg))) ∧
    (∀ (pre : List ELResponse) (d : DubbingPayload) (rest : List ELResponse)
        (out : ELOutcome),
      (∀ r ∈ pre, elResponseStep r = none) → elStep d = some out →
      elPollRun (pre ++ ELResponse.payload d :: rest) = (out, pre.length + 1)) := by
  refine ⟨?_, ?_, ?_⟩
  · intro pre p rest out hpre hp
    exact loopRun_append_terminal responseStep PollOutcome.timedOut pre
      (PollResponse.payload p) rest out hpre hp
  · intro p msg hfail herr
    have hnotdone : lowerStr p.baseState ∉ doneStates := by
      simp only [failedStates, List.mem_cons, List.not_mem_nil, or_false] at hfail
      rcases hfail with h | h | h <;> rw [h] <;> decide
    simp [pollStep, hnotdone, hfail, herr]
  · intro pre d rest out hpre hd
    exact loopRun_append_terminal elResponseStep ELOutcome.timedOut pre
      (ELResponse.payload d) rest out hpre hd

/-- C5 witness: three pending polls followed by a failed report with
message "quota exceeded" stop the loop after the fourth poll and surface
the diagnostic text. -/
theorem C5_terminal_stops_witness :
    pollRun [PollResponse.payload pendingPayload, PollResponse.payload pendingPayload,
        PollResponse.payload pendingPayload,
        PollResponse.payload (failedPayload "quota exceeded")]
      = (PollOutcome.failed "Dubbing failed: quota exceeded", 4) :=
  C5_terminal_stops.1
    [PollResponse.payload pendingPayload, PollResponse.payload pendingPayload,
      PollResponse.payload pendingPayload]
    (failedPayload "quota exceeded") [] (PollOutcome.failed "Dubbing failed: quota exceeded")
    (by decide) (by decide)

/-- C6: a transient network failure is handled inside the loop — it
consumes exactly one attempt slot and leaves the loop to continue with
the same pending job state and unchanged eventual outcome — the poll
count never exceeds the attempt cap, and sustained connectivity loss ends
in the timeout rather than a propagated network error. -/
theorem C6_transient_retry :
    (∀ (msg : String) (rest : List PollResponse),
      pollRun (PollResponse.netError msg :: rest)
        = ((pollRun rest).1, (pollRun rest).2 + 1)) ∧
    (∀ (stream : Nat → PollResponse) (maxA : Nat),
      (check_project_status stream maxA).2 ≤ maxA) ∧
    (∀ (stream : Nat → PollResponse) (maxA : Nat),
      (∀ i, i < maxA → ∃ m, stream i = PollResponse.netError m) →
      check_project_status stream maxA = (PollOutcome.timedOut, maxA)) := by
  refine ⟨?_, ?_, ?_⟩
  · intro msg rest
    exact loopRun_cons_none responseStep PollOutcome.timedOut _ rest rfl
  · intro stream maxA
    have h := loopRun_count_le responseStep PollOutcome.timedOut
      ((List.range maxA).map stream)
    simpa [check_project_status, pollRun] using h
  · intro stream maxA h
    have hall : ∀ r ∈ (List.range maxA).map stream, responseStep r = none := by
      intro r hr
      rcases List.mem_map.mp hr with ⟨i, hi, rfl⟩
      rcases h i (List.mem_range.mp hi) with ⟨m, hm⟩
      rw [hm]
      rfl
    have := loopRun_all_none responseStep PollOutcome.timedOut
      ((List.range maxA).map stream) hall
    simpa [check_project_status, pollRun] using this

/-- C6 witness: a single network error consumes one slot and the loop
then times out on the empty remainder, and 120 consecutive network
errors end in the timeout after exactly 120 polls. -/
theorem C6_transient_retry_witness :
    pollRun [PollResponse.netError "boom"] = (PollOutcome.timedOut, 1) ∧
    check_project_status (fun _ => PollResponse.netError "boom") 120
      = (PollOutcome.timedOut, 120) :=
  ⟨C6_transient_retry.1 "boom" [],
   C6_transient_retry.2.2 (fun _ => PollResponse.netError "boom") 120
     (fun _ _ => ⟨"boom", rfl⟩)⟩

/-- C8: right after submission the attempt counter is 0, so the very
first poll is performed with attempts equal to 0; when that poll reports
Pending the loop is still in its polling state (it goes on to the next
cycle, only then incrementing the counter to 1) — for both providers. -/
theorem C8_first_poll_attempt_zero :
    (∀ (p : ProjectPayload) (rest : List PollResponse), pollStep p = none →
      pollAttemptLog 0 (PollResponse.payload p :: rest)
          = 0 :: pollAttemptLog 1 rest ∧
      pollRun (PollResponse.payload p :: rest)
          = ((pollRun rest).1, (pollRun rest).2 + 1)) ∧
    (∀ (d : DubbingPayload) (rest : List ELResponse), elStep d = none →
      elPollAttemptLog 0 (ELResponse.payload d :: rest)
          = 0 :: elPollAttemptLog 1 rest ∧
      elPollRun (ELResponse.payload d :: rest)
          = ((elPollRun rest).1, (elPollRun rest).2 + 1)) := by
  constructor
  · intro p rest hp
    exact ⟨loopAttemptLog_cons_none responseStep 0 (PollResponse.payload p) rest hp,
      loopRun_cons_none responseStep PollOutcome.timedOut (PollResponse.payload p) rest hp⟩
  · intro d rest hd
    exact ⟨loopAttemptLog_cons_none elResponseStep 0 (ELResponse.payload d) rest hd,
      loopRun_cons_none elResponseStep ELOutcome.timedOut (ELResponse.payload d) rest hd⟩

/-- C1: the polling loop performs at most maxAttempts poll cycles for any
response stream; when everything within the cap is Pending, the loop ends
in the timeout (never a Completed outcome), the pipeline raises "Project
timeout", and the run's trace contains no merge invocation and no file
write, so fetch, download and merge are never reached. -/
theorem C1_attempt_cap :
    (∀ (stream : Nat → PollResponse) (maxA : Nat),
      (check_project_status stream maxA).2 ≤ maxA) ∧
    (∀ (env : DubSmartEnv) (videoPath outputPath fileKey projectId : String),
      env.uploadResult = Except.ok fileKey →
      env.createResult = Except.ok projectId →
      (∀ i, i < env.maxAttempts →
        ∃ p, env.stream i = PollResponse.payload p ∧ pollStep p = none) →
      (check_project_status env.stream env.maxAttempts).1 = PollOutcome.timedOut ∧
      (dubsmart_process_video env videoPath outputPath).1
          = Except.error "Project timeout" ∧
      (∀ v a o, Effect.merge v a o ∉ (dubsmart_process_video env videoPath outputPath).2) ∧
      (∀ q, Effect.writeFile q ∉ (dubsmart_process_video env videoPath outputPath).2)) := by
  constructor
  · intro stream maxA
    simpa [check_project_status, pollRun] using
      loopRun_count_le responseStep PollOutcome.timedOut ((List.range maxA).map stream)
  · intro env videoPath outputPath fileKey projectId hu hc hp
    have hall : ∀ r ∈ (List.range env.maxAttempts).map env.stream,
        responseStep r = none := by
      intro r hr
      rcases List.mem_map.mp hr with ⟨i, hi, rfl⟩
      rcases hp i (List.mem_range.mp hi) with ⟨p, hsi, hpn⟩
      rw [hsi]
      exact hpn
    have hto : check_project_status env.stream env.maxAttempts
        = (PollOutcome.timedOut, env.maxAttempts) := by
      simpa [check_project_status, pollRun] using
        loopRun_all_none responseStep PollOutcome.timedOut
          ((List.range env.maxAttempts).map env.stream) hall
    refine ⟨by rw [hto], ?_, ?_, ?_⟩
    · simp [dubsmart_process_video, hu, hc, hto]
    · intro v a o
      simp [dubsmart_process_video, hu, hc, hto]
    · intro q
      simp [dubsmart_process_video, hu, hc, hto]

/-- C1 witness: with the hard-coded cap of 120 and a stream answering
Pending forever (so for at least 121 polls), the loop times out, the
pipeline raises the timeout, and at most 120 polls are performed. -/
theorem C1_attempt_cap_witness :
    (check_project_status envAllPending.stream envAllPending.maxAttempts).1
        = PollOutcome.timedOut ∧
    (dubsmart_process_video envAllPending "/tmp/v.mp4" "/tmp/o.mp4").1
        = Except.error "Project timeout" ∧
    (check_project_status envAllPending.stream 120).2 ≤ 120 := by
  have h := C1_attempt_cap.2 envAllPending "/tmp/v.mp4" "/tmp/o.mp4" "key" "pid" rfl rfl
    (fun _ _ => ⟨pendingPayload, rfl, by decide⟩)
  exact ⟨h.1, h.2.1, C1_attempt_cap.1 envAllPending.stream 120⟩

/-- C7: when the completed job yields a full-video deliverable and its
download succeeds, the pipeline's whole trace is upload, project
creation, the polls, and a single write of the downloaded file at the
output path — no merge invocation and no intermediate audio file. -/
theorem C7_direct_video (env : DubSmartEnv)
    (videoPath outputPath fileKey projectId url : String)
    (hu : env.uploadResult = Except.ok fileKey)
    (hc : env.createResult = Except.ok projectId)
    (hvid : (check_project_status env.stream env.maxAttempts).1
        = PollOutcome.completed url ResultKind.video)
    (hd : env.downloadOk url = true) :
    (dubsmart_process_video env videoPath outputPath).1 = Except.ok () ∧
    (dubsmart_process_video env videoPath outputPath).2
      = [Effect.upload, Effect.createProject,
         Effect.poll (check_project_status env.stream env.maxAttempts).2,
         Effect.writeFile outputPath] := by
  cases hck : check_project_status env.stream env.maxAttempts with
  | mk outc n =>
    rw [hck] at hvid
    have houtc : outc = PollOutcome.completed url ResultKind.video := hvid
    subst houtc
    constructor <;> simp [dubsmart_process_video, hu, hc, hck, hd]

/-- C7 witness: a concrete run whose first poll reports completion with a
direct video URL downloads it straight to the output path and performs
no merge. -/
theorem C7_direct_video_witness :
    (dubsmart_process_video envVideoSuccess "/tmp/v.mp4" "/tmp/o.mp4").1 = Except.ok () ∧
    (dubsmart_process_video envVideoSuccess "/tmp/v.mp4" "/tmp/o.mp4").2
      = [Effect.upload, Effect.createProject,
         Effect.poll (check_project_status envVideoSuccess.stream
           envVideoSuccess.maxAttempts).2,
         Effect.writeFile "/tmp/o.mp4"] :=
  C7_direct_video envVideoSuccess "/tmp/v.mp4" "/tmp/o.mp4" "key" "pid"
    "http://x/video.mp4" rfl rfl (by decide) rfl

/-- C10: every successful ElevenLabs run downloads the result as an
audio-only asset to the intermediate path and invokes the merge with the
original video; the direct-video path that skips the merge is reachable
for the DubSmart pipeline (witnessed by a successful merge-free run) but
for no successful ElevenLabs run. -/
theorem C10_elevenlabs_always_merges :
    (∀ (env : ElevenLabsEnv) (videoPath outputPath : String),
      (elevenlabs_process_video env videoPath outputPath).1 = Except.ok () →
      Effect.writeFile elevenAudioPath
          ∈ (elevenlabs_process_video env videoPath outputPath).2 ∧
      Effect.merge videoPath elevenAudioPath outputPath
          ∈ (elevenlabs_process_video env videoPath outputPath).2) ∧
    (∃ (env : DubSmartEnv) (videoPath outputPath : String),
      (dubsmart_process_video env videoPath outputPath).1 = Except.ok () ∧
      ∀ v a o, Effect.merge v a o ∉ (dubsmart_process_video env videoPath outputPath).2) := by
  constructor
  · intro env videoPath outputPath hok
    cases hcr : env.createResult with
    | error e => simp [elevenlabs_process_video, hcr] at hok
    | ok dubbingId =>
      cases hck : check_dubbing_status env.stream env.maxAttempts with
      | mk outc n =>
        cases outc with
        | timedOut => simp [elevenlabs_process_video, hcr, hck] at hok
        | failed msg => simp [elevenlabs_process_video, hcr, hck] at hok
        | dubbed =>
          cases hdl : env.downloadOk with
          | false => simp [elevenlabs_process_video, hcr, hck, hdl] at hok
          | true =>
            cases hmg : env.mergeOk with
            | false => simp [elevenlabs_process_video, hcr, hck, hdl, hmg] at hok
            | true =>
              constructor <;> simp [elevenlabs_process_video, hcr, hck, hdl, hmg]
  · refine ⟨envVideoSuccess, "/tmp/v.mp4", "/tmp/o.mp4", by decide, ?_⟩
    intro v a o
    have htr : (dubsmart_process_video envVideoSuccess "/tmp/v.mp4" "/tmp/o.mp4").2
        = [Effect.upload, Effect.createProject, Effect.poll 1,
           Effect.writeFile "/tmp/o.mp4"] := by decide
    rw [htr]
    simp

/-- C10 witness: a concrete successful ElevenLabs run downloads the audio
asset and performs the merge. -/
theorem C10_elevenlabs_always_merges_witness :
    Effect.writeFile elevenAudioPath
        ∈ (elevenlabs_process_video elEnvSuccess "/tmp/v.mp4" "/tmp/o.mp4").2 ∧
    Effect.merge "/tmp/v.mp4" elevenAudioPath "/tmp/o.mp4"
        ∈ (elevenlabs_process_video elEnvSuccess "/tmp/v.mp4" "/tmp/o.mp4").2 :=
  C10_elevenlabs_always_merges.1 elEnvSuccess "/tmp/v.mp4" "/tmp/o.mp4" (by decide)

/-- C8 witness: a first Pending poll for each provider is performed with
the attempt counter at 0 and leaves the loop polling. -/
theorem C8_first_poll_attempt_zero_witness :
    pollAttemptLog 0 [PollResponse.payload pendingPayload] = [0] ∧
    elPollAttemptLog 0 [ELResponse.payload { status := "dubbing", error := none }] = [0] :=
  ⟨(C8_first_poll_attempt_zero.1 pendingPayload [] (by decide)).1,
   (C8_first_poll_attempt_zero.2 { status := "dubbing", error := none } [] (by decide)).1⟩

end LinguaVid
